import Mathlib

/-!
Shallow embedding of the credit-ledger core of `src/server.js`
(conecta-saude backend): the login-time automatic recharge
(`POST /auth/login`, lines 67-78), the credit check, external AI call and
transactional debit of `POST /ai/generate` (lines 92-140), and a small
interleaving semantics for concurrent debit requests against one account.
Machine integers are modelled as `Int`/`Nat` (JS numbers are exact on the
integer ranges involved); the Postgres transaction of the debit is modelled
as tentative writes that are published only at COMMIT.
-/

namespace ConectaSaude

/-- One row of the `transactions` table, as inserted at
`src/server.js:127`: `(user_id, amount, description, type)`. -/
structure Txn where
  userId : Nat
  amount : Int
  description : String
  type : String
deriving DecidableEq

/-- The ledger-relevant columns of one `users` row (`credits`,
`last_recharge_date` in milliseconds since epoch) together with that
user's rows of the `transactions` table. -/
structure LedgerState where
  credits : Int
  lastRechargeMs : Int
  transactions : List Txn
deriving DecidableEq

/-- `1000 * 60 * 60 * 24`, the divisor at `src/server.js:70`. -/
def msPerDay : Nat := 1000 * 60 * 60 * 24

/-- `Math.ceil(Math.abs(today - last) / (1000*60*60*24))`
(`src/server.js:70`): absolute difference of the two timestamps in
milliseconds, divided by a day, rounded up. -/
def diffDays (todayMs lastMs : Int) : Nat :=
  ((todayMs - lastMs).natAbs + msPerDay - 1) / msPerDay

/-- The eligibility condition at `src/server.js:74`:
`(user.age > 60 && diffDays >= 180) || (user.age <= 60 && diffDays >= 365)`. -/
def rechargeDue (age : Int) (d : Nat) : Bool :=
  (decide (age > 60) && decide (d ≥ 180)) || (decide (age ≤ 60) && decide (d ≥ 365))

/-- The eligibility window the spec describes: 180 days over age 60,
365 days otherwise. -/
def rechargeWindow (age : Int) : Nat :=
  if age > 60 then 180 else 365

/-- The recharge step of the login handler (`src/server.js:68-78`): if the
user is due, `UPDATE users SET credits = 100, last_recharge_date =
CURRENT_DATE` and report `recharged = true`; otherwise no write.
`nowMs` is `new Date()` at line 68, `currentDateMs` the day stored by
`CURRENT_DATE`.  No row is inserted into `transactions` on this path. -/
def loginRecharge (age : Int) (nowMs currentDateMs : Int) (s : LedgerState) :
    LedgerState × Bool :=
  if rechargeDue age (diffDays nowMs s.lastRechargeMs) then
    ({ s with credits := 100, lastRechargeMs := currentDateMs }, true)
  else
    (s, false)

/-- The description inserted with every usage row (`src/server.js:127`). -/
def usoIA : String := "Uso IA"

/-- A point inside the debit transaction of `src/server.js:125-128` at
which the database can fail: the `UPDATE`, the `INSERT`, or the `COMMIT`. -/
inductive DbStep
  | update
  | insert
  | commit
deriving DecidableEq

/-- The debit transaction of `src/server.js:123-136`: `BEGIN`; `UPDATE
users SET credits = credits - cost`; `INSERT INTO transactions (user_id,
amount, description, type) VALUES (uid, -cost, 'Uso IA', 'usage')`;
`COMMIT`.  Writes are tentative until `COMMIT`; a failure at any step
raises, the `catch` issues `ROLLBACK`, and the published state is the one
from before `BEGIN`.  Returns the published state and whether the
transaction committed. -/
def debitTxn (s : LedgerState) (uid : Nat) (cost : Int) (failAt : Option DbStep) :
    LedgerState × Bool :=
  if failAt = some DbStep.update then (s, false)
  else
    let t1 : LedgerState := { s with credits := s.credits - cost }
    if failAt = some DbStep.insert then (s, false)
    else
      let t2 : LedgerState :=
        { t1 with transactions :=
            t1.transactions ++ [{ userId := uid, amount := -cost,
                                  description := usoIA, type := "usage" }] }
      if failAt = some DbStep.commit then (s, false)
      else (t2, true)

/-- Observable step of the `/ai/generate` handler, in program order. -/
inductive Event
  | checkCredits
  | callAI
  | debitCommit
deriving DecidableEq

/-- Outcome of one `/ai/generate` request: HTTP 402 (line 97), HTTP 500
from a failed/unusable generation call (lines 110, 137-140), HTTP 500
after a rolled-back debit transaction (lines 131-133, 137-140), or HTTP
200 with `new_credits` computed from the initially read balance
(line 130). -/
inductive GenResult
  | insufficient
  | aiError
  | dbError
  | success (newCredits : Int)
deriving DecidableEq

/-- The `/ai/generate` handler (`src/server.js:92-141`) for one request,
run without interference: read `credits` (line 96); if `credits < cost`
answer 402 with no further action (line 97); otherwise call the
generation API (line 101) — `aiText` is the text it yields, `none` when
the call fails or returns no usable text (line 110 throws) — and only
then run the debit transaction (lines 123-136).  Also returns the trace
of observable steps. -/
def aiGenerate (s : LedgerState) (uid : Nat) (cost : Int)
    (aiText : Option String) (failAt : Option DbStep) :
    LedgerState × GenResult × List Event :=
  if s.credits < cost then
    (s, GenResult.insufficient, [Event.checkCredits])
  else
    match aiText with
    | none => (s, GenResult.aiError, [Event.checkCredits, Event.callAI])
    | some _ =>
      let r := debitTxn s uid cost failAt
      if r.2 then
        (r.1, GenResult.success (s.credits - cost),
          [Event.checkCredits, Event.callAI, Event.debitCommit])
      else
        (r.1, GenResult.dbError, [Event.checkCredits, Event.callAI])

/-- Sum of the `amount` column over a list of transaction rows. -/
def sumAmounts (ts : List Txn) : Int :=
  (ts.map Txn.amount).sum

/-- The ledger invariant of the spec: stored balance = starting grant plus
the sum of all transaction amounts of the account. -/
def ledgerInvariant (grant : Int) (s : LedgerState) : Prop :=
  s.credits = grant + sumAmounts s.transactions

instance (grant : Int) (s : LedgerState) : Decidable (ledgerInvariant grant s) := by
  unfold ledgerInvariant
  infer_instance

/-- Modelled from the spec: `authorizeConsumption` of §4.3 (no such
routine exists in `src/`; the consumption gate is inlined in the
`/ai/generate` handler).  Per the spec's words it calls
`getEffectiveBalance` first — so a just-due recharge is applied — and
then compares the effective balance to the cost. -/
def authorizeConsumptionSpec (age : Int) (nowMs currentDateMs : Int)
    (s : LedgerState) (cost : Int) : Bool :=
  let s1 := (loginRecharge age nowMs currentDateMs s).1
  decide (cost ≤ s1.credits)

/-- Progress of one in-flight debit request of fixed cost: still has to
run the balance check of `src/server.js:96-97`, has passed it and still
has to run the debit transaction of lines 123-136, finished successfully,
or was refused with 402. -/
inductive ReqPhase
  | toCheck
  | toDebit
  | doneOk
  | doneFail
deriving DecidableEq

/-- Shared database plus the progress of each concurrent request. -/
structure ConcState where
  ledger : LedgerState
  reqs : List ReqPhase
deriving DecidableEq

/-- One database-visible step of request `i`, all requests debiting the
same account `uid` the same `cost`.  The balance check (line 96, its own
pool query) and the debit transaction (lines 123-136) are each atomic,
but nothing serializes the pair: between a request's check and its debit,
other requests may run.  The `UPDATE` at line 126 decrements relative to
the credits current at debit time. -/
def stepReq (uid : Nat) (cost : Int) (cs : ConcState) (i : Nat) : ConcState :=
  match cs.reqs.get? i with
  | some ReqPhase.toCheck =>
    if cs.ledger.credits < cost then
      { cs with reqs := cs.reqs.set i ReqPhase.doneFail }
    else
      { cs with reqs := cs.reqs.set i ReqPhase.toDebit }
  | some ReqPhase.toDebit =>
    { ledger := (debitTxn cs.ledger uid cost none).1,
      reqs := cs.reqs.set i ReqPhase.doneOk }
  | _ => cs

/-- Run a schedule: the list names, in order, which request performs its
next database-visible step. -/
def runSched (uid : Nat) (cost : Int) (cs : ConcState) (sched : List Nat) : ConcState :=
  sched.foldl (stepReq uid cost) cs

/-! ## Theorems -/

/-- Ceiling division written as `(a + d - 1) / d` agrees with
"divide and round any remainder up". -/
lemma add_pred_div_eq_ceil (a : Nat) :
    (a + msPerDay - 1) / msPerDay =
      a / msPerDay + (if a % msPerDay = 0 then 0 else 1) := by
  unfold msPerDay
  by_cases h : a % 86400000 = 0 <;> simp [h] <;> omega

/-- C4: the recharge decision uses elapsedDays = ceiling of the absolute
difference between the two timestamps in days, and is due exactly when
elapsedDays reaches the window: 180 days when ageYears > 60, 365 days
otherwise; ageYears = 60 uses the 365-day window. -/
theorem rechargeDecision (age nowMs lastMs : Int) :
    (rechargeDue age (diffDays nowMs lastMs) = true ↔
      rechargeWindow age ≤ diffDays nowMs lastMs) ∧
    diffDays nowMs lastMs =
      (nowMs - lastMs).natAbs / msPerDay +
        (if (nowMs - lastMs).natAbs % msPerDay = 0 then 0 else 1) ∧
    rechargeWindow 60 = 365 := by
  refine ⟨?_, ?_, ?_⟩
  · unfold rechargeDue rechargeWindow
    by_cases h : (60 : Int) < age
    · simp [h]
    · simp [h]
      omega
  · exact add_pred_div_eq_ceil (nowMs - lastMs).natAbs
  · rfl

/-- C6: the debit transaction is atomic: when no step fails it both
decrements the balance by the requested amount and appends a `usage` row
carrying the negated amount; when any step fails, the published state is
exactly the state from before the call. -/
theorem debitAtomic (s : LedgerState) (uid : Nat) (cost : Int) (failAt : Option DbStep) :
    (failAt = none →
      debitTxn s uid cost failAt =
        ({ s with credits := s.credits - cost,
                  transactions := s.transactions ++
                    [{ userId := uid, amount := -cost,
                       description := usoIA, type := "usage" }] }, true)) ∧
    (failAt ≠ none → debitTxn s uid cost failAt = (s, false)) := by
  constructor
  · intro h
    subst h
    rfl
  · intro h
    match failAt, h with
    | some DbStep.update, _ => rfl
    | some DbStep.insert, _ => rfl
    | some DbStep.commit, _ => rfl

/-- Witness for `debitAtomic` at a concrete state. -/
theorem debitAtomic_witness :
    debitTxn { credits := 9, lastRechargeMs := 0, transactions := [] } 4 2 none =
      ({ credits := 7, lastRechargeMs := 0,
         transactions := [{ userId := 4, amount := -2,
                            description := usoIA, type := "usage" }] }, true) ∧
    debitTxn { credits := 9, lastRechargeMs := 0, transactions := [] } 4 2
        (some DbStep.insert) =
      ({ credits := 9, lastRechargeMs := 0, transactions := [] }, false) := by
  constructor
  · exact (debitAtomic { credits := 9, lastRechargeMs := 0, transactions := [] }
      4 2 none).1 rfl
  · exact (debitAtomic { credits := 9, lastRechargeMs := 0, transactions := [] }
      4 2 (some DbStep.insert)).2 (by simp)

/-- C1: if the requested cost exceeds the balance, the request is refused
with 402, the state (balance and transaction rows) is untouched and the
external call is never made; if balance ≥ cost (equality included) the
request passes the gate, and a committed debit leaves balance - cost,
which is never negative; any outcome from a non-negative balance leaves a
non-negative balance. -/
theorem consumptionGate (s : LedgerState) (uid : Nat) (cost : Int)
    (aiText : Option String) (failAt : Option DbStep) :
    (s.credits < cost →
      aiGenerate s uid cost aiText failAt =
        (s, GenResult.insufficient, [Event.checkCredits])) ∧
    (¬ s.credits < cost →
      (aiGenerate s uid cost aiText failAt).2.1 ≠ GenResult.insufficient) ∧
    (¬ s.credits < cost → failAt = none → ∀ txt, aiText = some txt →
      (aiGenerate s uid cost aiText failAt).1.credits = s.credits - cost ∧
      0 ≤ s.credits - cost) ∧
    (0 ≤ s.credits → 0 ≤ (aiGenerate s uid cost aiText failAt).1.credits) := by
  by_cases h : s.credits < cost
  · refine ⟨fun _ => by simp [aiGenerate, h], fun h2 => absurd h h2,
      fun h2 => absurd h h2, fun h0 => by simp [aiGenerate, h, h0]⟩
  · refine ⟨fun h1 => absurd h1 h, ?_, ?_, ?_⟩
    · cases aiText with
      | none => simp [aiGenerate, h]
      | some txt =>
        simp only [aiGenerate, h, if_false]
        by_cases hc : (debitTxn s uid cost failAt).2 <;> simp [hc]
    · intro _ hf txt ht
      subst hf
      subst ht
      simp [aiGenerate, h, debitTxn]
      omega
    · intro h0
      cases aiText with
      | none => simpa [aiGenerate, h] using h0
      | some txt =>
        simp only [aiGenerate, h, if_false]
        by_cases hc : (debitTxn s uid cost failAt).2
        · simp only [hc, if_true]
          have : (debitTxn s uid cost failAt).1.credits = s.credits - cost := by
            match failAt with
            | none => rfl
            | some DbStep.update => simp [debitTxn] at hc
            | some DbStep.insert => simp [debitTxn] at hc
            | some DbStep.commit => simp [debitTxn] at hc
          rw [this]
          omega
        · have : (debitTxn s uid cost failAt).1 = s := by
            match failAt with
            | none => simp [debitTxn] at hc
            | some DbStep.update => rfl
            | some DbStep.insert => rfl
            | some DbStep.commit => rfl
          simp only [hc, if_false, this]
          exact h0

/-- Witness for `consumptionGate` at concrete inputs: cost 3 against
balance 5 passes the gate and debits to 2. -/
theorem consumptionGate_witness :
    (aiGenerate { credits := 5, lastRechargeMs := 0, transactions := [] }
        1 3 (some "ok") none).1.credits = 5 - 3 ∧
    0 ≤ (5 : Int) - 3 :=
  (consumptionGate { credits := 5, lastRechargeMs := 0, transactions := [] }
    1 3 (some "ok") none).2.2.1 (by decide) rfl "ok" rfl

/-- C10: when the generation call fails or yields no usable text, the
handler answers with an error before the debit step: balance and
transaction rows are unchanged and no debit event occurs. -/
theorem aiFailureNoCharge (s : LedgerState) (uid : Nat) (cost : Int)
    (failAt : Option DbStep) (h : ¬ s.credits < cost) :
    aiGenerate s uid cost none failAt =
      (s, GenResult.aiError, [Event.checkCredits, Event.callAI]) := by
  simp [aiGenerate, h]

/-- Witness for `aiFailureNoCharge`: balance 5, cost 3, failed AI call. -/
theorem aiFailureNoCharge_witness :
    aiGenerate { credits := 5, lastRechargeMs := 0, transactions := [] }
        1 3 none none =
      ({ credits := 5, lastRechargeMs := 0, transactions := [] },
        GenResult.aiError, [Event.checkCredits, Event.callAI]) :=
  aiFailureNoCharge { credits := 5, lastRechargeMs := 0, transactions := [] }
    1 3 none (by decide)

/-- C7 counterexample: in a successful authorized consumption (balance
100, cost 30, usable AI text, no database failure) the external call
happens strictly before the debit, not after it: the trace is
check, call, debit, and the request succeeded. -/
theorem debitBeforeCall_counterexample :
    (aiGenerate { credits := 100, lastRechargeMs := 0, transactions := [] }
        1 30 (some "ok") none).2.2 =
      [Event.checkCredits, Event.callAI, Event.debitCommit] ∧
    (aiGenerate { credits := 100, lastRechargeMs := 0, transactions := [] }
        1 30 (some "ok") none).2.1 = GenResult.success 70 := by
  constructor <;> rfl

/-- C7 amended: in every run of the handler whose trace contains a
committed debit, the external call precedes it — the trace is exactly
check, then call, then debit — so the debit is made only after the
generation call returned usable text, and no refund path exists because
nothing runs after the debit. -/
theorem externalCallPrecedesDebit (s : LedgerState) (uid : Nat) (cost : Int)
    (aiText : Option String) (failAt : Option DbStep)
    (h : Event.debitCommit ∈ (aiGenerate s uid cost aiText failAt).2.2) :
    (aiGenerate s uid cost aiText failAt).2.2 =
      [Event.checkCredits, Event.callAI, Event.debitCommit] := by
  by_cases hlt : s.credits < cost
  · simp [aiGenerate, hlt] at h
  · cases aiText with
    | none => simp [aiGenerate, hlt] at h
    | some txt =>
      simp only [aiGenerate, hlt, if_false] at h ⊢
      by_cases hc : (debitTxn s uid cost failAt).2
      · simp [hc]
      · simp [hc] at h

/-- Witness for `externalCallPrecedesDebit`: balance 40, cost 10. -/
theorem externalCallPrecedesDebit_witness :
    (aiGenerate { credits := 40, lastRechargeMs := 0, transactions := [] }
        2 10 (some "texto") none).2.2 =
      [Event.checkCredits, Event.callAI, Event.debitCommit] :=
  externalCallPrecedesDebit { credits := 40, lastRechargeMs := 0, transactions := [] }
    2 10 (some "texto") none (by decide)

/-- C5 counterexample: a due recharge (age 70, 200 elapsed days) sets the
balance to 100 and reports the flag, but appends no transaction row of
any kind: the transaction list stays empty. -/
theorem rechargeRecord_counterexample :
    (loginRecharge 70 (200 * (msPerDay : Int)) (200 * (msPerDay : Int))
        { credits := 40, lastRechargeMs := 0, transactions := [] }).2 = true ∧
    (loginRecharge 70 (200 * (msPerDay : Int)) (200 * (msPerDay : Int))
        { credits := 40, lastRechargeMs := 0, transactions := [] }).1.credits = 100 ∧
    (loginRecharge 70 (200 * (msPerDay : Int)) (200 * (msPerDay : Int))
        { credits := 40, lastRechargeMs := 0, transactions := [] }).1.transactions
      = [] := by
  refine ⟨?_, ?_, ?_⟩ <;> rfl

/-- C5 amended: when the account is due, the recharge sets the balance to
the fixed amount 100 (not a delta-add), sets the stored timestamp to the
current day and reports the recharged flag, but appends no transaction
row; when not due, it returns the stored state unchanged with the flag
false. -/
theorem loginRechargeBehavior (age nowMs currentDateMs : Int) (s : LedgerState) :
    (rechargeDue age (diffDays nowMs s.lastRechargeMs) = true →
      loginRecharge age nowMs currentDateMs s =
        ({ s with credits := 100, lastRechargeMs := currentDateMs }, true)) ∧
    (rechargeDue age (diffDays nowMs s.lastRechargeMs) = false →
      loginRecharge age nowMs currentDateMs s = (s, false)) := by
  constructor
  · intro h
    simp [loginRecharge, h]
  · intro h
    simp [loginRecharge, h]

/-- Witness for `loginRechargeBehavior`: age 70 after 200 days is due;
age 60 after 200 days is not. -/
theorem loginRechargeBehavior_witness :
    loginRecharge 70 (200 * (msPerDay : Int)) (200 * (msPerDay : Int))
        { credits := 40, lastRechargeMs := 0, transactions := [] } =
      ({ credits := 100, lastRechargeMs := 200 * (msPerDay : Int),
         transactions := [] }, true) ∧
    loginRecharge 60 (200 * (msPerDay : Int)) (200 * (msPerDay : Int))
        { credits := 40, lastRechargeMs := 0, transactions := [] } =
      ({ credits := 40, lastRechargeMs := 0, transactions := [] }, false) := by
  constructor
  · exact (loginRechargeBehavior 70 (200 * (msPerDay : Int)) (200 * (msPerDay : Int))
      { credits := 40, lastRechargeMs := 0, transactions := [] }).1 (by decide)
  · exact (loginRechargeBehavior 60 (200 * (msPerDay : Int)) (200 * (msPerDay : Int))
      { credits := 40, lastRechargeMs := 0, transactions := [] }).2 (by decide)

/-- C2 counterexample: a state satisfying the ledger invariant (grant 0,
balance 0, no rows) that is due for recharge; after the login recharge
the balance is 100 but the rows still sum to 0, so the invariant is
broken at an observable point. -/
theorem ledgerInvariant_counterexample :
    ledgerInvariant 0 { credits := 0, lastRechargeMs := 0, transactions := [] } ∧
    (loginRecharge 70 (200 * (msPerDay : Int)) (200 * (msPerDay : Int))
        { credits := 0, lastRechargeMs := 0, transactions := [] }).2 = true ∧
    ¬ ledgerInvariant 0
        (loginRecharge 70 (200 * (msPerDay : Int)) (200 * (msPerDay : Int))
          { credits := 0, lastRechargeMs := 0, transactions := [] }).1 := by
  refine ⟨by decide, by decide, by decide⟩

/-- C2 amended: the consumption handler preserves the invariant
"balance = grant + sum of transaction amounts" in every branch (refusal,
failed AI call, rolled-back or committed debit), but the login recharge
does not preserve it (see the counterexample): it rewrites the balance to
100 without any transaction row. -/
theorem consumptionPreservesInvariant (grant : Int) (s : LedgerState) (uid : Nat)
    (cost : Int) (aiText : Option String) (failAt : Option DbStep)
    (h : ledgerInvariant grant s) :
    ledgerInvariant grant (aiGenerate s uid cost aiText failAt).1 := by
  by_cases hlt : s.credits < cost
  · simpa [aiGenerate, hlt] using h
  · cases aiText with
    | none => simpa [aiGenerate, hlt] using h
    | some txt =>
      simp only [aiGenerate, hlt, if_false]
      by_cases hc : (debitTxn s uid cost failAt).2
      · simp only [hc, if_true]
        have hd : (debitTxn s uid cost failAt).1 =
            { s with credits := s.credits - cost,
                     transactions := s.transactions ++
                       [{ userId := uid, amount := -cost,
                          description := usoIA, type := "usage" }] } := by
          match failAt with
          | none => rfl
          | some DbStep.update => simp [debitTxn] at hc
          | some DbStep.insert => simp [debitTxn] at hc
          | some DbStep.commit => simp [debitTxn] at hc
        rw [hd]
        unfold ledgerInvariant sumAmounts at h ⊢
        simp only [List.map_append, List.sum_append, List.map_cons, List.map_nil,
          List.sum_cons, List.sum_nil]
        omega
      · have hd : (debitTxn s uid cost failAt).1 = s := by
          match failAt with
          | none => simp [debitTxn] at hc
          | some DbStep.update => rfl
          | some DbStep.insert => rfl
          | some DbStep.commit => rfl
        simpa [hc, hd] using h

/-- Witness for `consumptionPreservesInvariant`: grant 50, one earlier
usage row of -20, balance 30, a committed debit of 30. -/
theorem consumptionPreservesInvariant_witness :
    ledgerInvariant 50
      (aiGenerate
        { credits := 30, lastRechargeMs := 0,
          transactions := [{ userId := 7, amount := -20,
                             description := usoIA, type := "usage" }] }
        7 30 (some "ok") none).1 :=
  consumptionPreservesInvariant 50
    { credits := 30, lastRechargeMs := 0,
      transactions := [{ userId := 7, amount := -20,
                         description := usoIA, type := "usage" }] }
    7 30 (some "ok") none (by decide)

/-- C3 counterexample: an account that is due for replenishment (age 70,
200 elapsed days, stored balance 0).  The spec-modelled gate, which
applies the recharge first, authorizes a cost of 50 (100 ≥ 50); the
handler as implemented compares the stale stored balance 0 and refuses
with InsufficientCredits. -/
theorem staleBalanceCheck_counterexample :
    authorizeConsumptionSpec 70 (200 * (msPerDay : Int)) (200 * (msPerDay : Int))
        { credits := 0, lastRechargeMs := 0, transactions := [] } 50 = true ∧
    (aiGenerate { credits := 0, lastRechargeMs := 0, transactions := [] }
        1 50 (some "ok") none).2.1 = GenResult.insufficient := by
  constructor <;> rfl

/-- C3 amended: the consumption path never evaluates the recharge policy:
its refusal is decided by the stored balance alone (refused iff stored
credits < cost), for every input; the recharge runs only in the login
handler. -/
theorem consumptionChecksStoredBalance (s : LedgerState) (uid : Nat) (cost : Int)
    (aiText : Option String) (failAt : Option DbStep) :
    (aiGenerate s uid cost aiText failAt).2.1 = GenResult.insufficient ↔
      s.credits < cost := by
  by_cases hlt : s.credits < cost
  · simp [aiGenerate, hlt]
  · cases aiText with
    | none => simp [aiGenerate, hlt]
    | some txt =>
      simp only [aiGenerate, hlt, if_false]
      by_cases hc : (debitTxn s uid cost failAt).2 <;> simp [hc, hlt]

/-- C8 counterexample: a debit request for the negative amount -50
against balance 10 is not rejected: it passes the balance check, the
external call is made, and the debit transaction commits, writing balance
60 and a `usage` row with amount +50. -/
theorem invalidAmount_counterexample :
    (aiGenerate { credits := 10, lastRechargeMs := 0, transactions := [] }
        1 (-50) (some "ok") none).2.1 = GenResult.success 60 ∧
    (aiGenerate { credits := 10, lastRechargeMs := 0, transactions := [] }
        1 (-50) (some "ok") none).1.credits = 60 ∧
    (aiGenerate { credits := 10, lastRechargeMs := 0, transactions := [] }
        1 (-50) (some "ok") none).1.transactions =
      [{ userId := 1, amount := 50, description := usoIA, type := "usage" }] := by
  refine ⟨?_, ?_, ?_⟩ <;> rfl

/-- C8 amended: the handler validates no amount: every non-positive cost
passes the balance check whenever the balance is non-negative, and a
committed run increases the balance by the negated cost and appends a
`usage` row with the non-negative amount -cost — there is no InvalidAmount
rejection anywhere in the code. -/
theorem nonPositiveCostAccepted (s : LedgerState) (uid : Nat) (cost : Int)
    (txt : String) (hc : cost ≤ 0) (hs : 0 ≤ s.credits) :
    (aiGenerate s uid cost (some txt) none).2.1 =
      GenResult.success (s.credits - cost) ∧
    s.credits ≤ (aiGenerate s uid cost (some txt) none).1.credits ∧
    (aiGenerate s uid cost (some txt) none).1.transactions =
      s.transactions ++
        [{ userId := uid, amount := -cost, description := usoIA, type := "usage" }] := by
  have hlt : ¬ s.credits < cost := by omega
  refine ⟨by simp [aiGenerate, hlt, debitTxn], ?_, by simp [aiGenerate, hlt, debitTxn]⟩
  simp [aiGenerate, hlt, debitTxn]
  omega

/-- Witness for `nonPositiveCostAccepted`: balance 10, cost -50. -/
theorem nonPositiveCostAccepted_witness :
    (aiGenerate { credits := 10, lastRechargeMs := 0, transactions := [] }
        3 (-50) (some "oi") none).2.1 = GenResult.success (10 - (-50)) ∧
    (10 : Int) ≤ (aiGenerate { credits := 10, lastRechargeMs := 0, transactions := [] }
        3 (-50) (some "oi") none).1.credits ∧
    (aiGenerate { credits := 10, lastRechargeMs := 0, transactions := [] }
        3 (-50) (some "oi") none).1.transactions =
      [] ++ [{ userId := 3, amount := 50, description := usoIA, type := "usage" }] :=
  nonPositiveCostAccepted { credits := 10, lastRechargeMs := 0, transactions := [] }
    3 (-50) "oi" (by decide) (by decide)

/-- C9 counterexample: two concurrent debits of 60 against balance 100,
interleaved check-check-debit-debit, both pass the stale balance check,
both commit, and the final balance is -20 — so it is false that at most
one succeeds, and false that the balance stays non-negative. -/
theorem concurrentDebits_counterexample :
    (runSched 1 60
        { ledger := { credits := 100, lastRechargeMs := 0, transactions := [] },
          reqs := [ReqPhase.toCheck, ReqPhase.toCheck] }
        [0, 1, 0, 1]).reqs = [ReqPhase.doneOk, ReqPhase.doneOk] ∧
    (runSched 1 60
        { ledger := { credits := 100, lastRechargeMs := 0, transactions := [] },
          reqs := [ReqPhase.toCheck, ReqPhase.toCheck] }
        [0, 1, 0, 1]).ledger.credits = -20 := by
  constructor <;> rfl

/-- C9 amended: nothing serializes the check-then-debit pair per account:
there is a schedule of 10 concurrent debits of 10 against a starting
balance of 55 in which all 10 pass the balance check and all 10 commit,
leaving balance -45 and 10 `usage` rows — not 5 successes, 5 refusals and
balance 5 as the claim requires. -/
theorem tenConcurrentDebits :
    (runSched 1 10
        { ledger := { credits := 55, lastRechargeMs := 0, transactions := [] },
          reqs := List.replicate 10 ReqPhase.toCheck }
        ([0, 1, 2, 3, 4, 5, 6, 7, 8, 9] ++ [0, 1, 2, 3, 4, 5, 6, 7, 8, 9])).reqs =
      List.replicate 10 ReqPhase.doneOk ∧
    (runSched 1 10
        { ledger := { credits := 55, lastRechargeMs := 0, transactions := [] },
          reqs := List.replicate 10 ReqPhase.toCheck }
        ([0, 1, 2, 3, 4, 5, 6, 7, 8, 9] ++ [0, 1, 2, 3, 4, 5, 6, 7, 8, 9])).ledger.credits
      = -45 ∧
    ((runSched 1 10
        { ledger := { credits := 55, lastRechargeMs := 0, transactions := [] },
          reqs := List.replicate 10 ReqPhase.toCheck }
        ([0, 1, 2, 3, 4, 5, 6, 7, 8, 9] ++ [0, 1, 2, 3, 4, 5, 6, 7, 8, 9])).ledger.transactions).length
      = 10 := by
  refine ⟨?_, ?_, ?_⟩ <;> rfl

end ConectaSaude
